import Mathlib

/-!
Verification of the NeuroAid frontend assessment pipeline.

The definitions below are shallow embeddings of the JSX source files:
numbers are modelled as exact rationals (reals where Math.sqrt occurs),
Math.round as the floor of x + 1/2, toFixed(d) followed by parseFloat as
rounding to d decimal places, and nullable values as Option.
-/

namespace NeuroAid

/-- JS Math.round on a rational: floor of x + 1/2 (round half up). -/
def jsRound (q : ℚ) : ℤ := ⌊q + 1/2⌋

/-- JS Math.round on a real (used on values built with Math.sqrt). -/
noncomputable def jsRoundR (x : ℝ) : ℤ := ⌊x + 1/2⌋

/-- parseFloat(x.toFixed(d)) for the nonnegative values of this codebase:
rounding to d decimal places. -/
def roundTo (d : ℕ) (q : ℚ) : ℚ := (jsRound (q * 10 ^ d) : ℚ) / 10 ^ d

/-- Speech payload committed to the assessment context by SpeechTest stopRec. -/
structure SpeechData where
  audio_b64 : Option String
  wpm : ℤ
  speed_deviation : ℤ
  speech_speed_variability : ℤ
  pause_ratio : ℚ
  completion_ratio : ℚ
  restart_count : ℕ
  speech_start_delay : ℚ
  deriving DecidableEq

/-- Memory payload committed to the context by MemoryTest. -/
structure MemoryData where
  word_recall_accuracy : ℚ
  pattern_accuracy : ℚ
  delayed_recall_accuracy : ℚ
  recall_latency_seconds : ℚ
  order_match_ratio : ℚ
  intrusion_count : ℕ
  deriving DecidableEq

/-- Reaction payload committed to the context by ReactionTest finishTest. -/
structure ReactionData where
  times : List ℚ
  miss_count : ℕ
  deriving DecidableEq

/-- Stroop payload committed to the context by the Stroop test. -/
structure StroopData where
  total_trials : ℕ
  error_count : ℕ
  mean_rt : ℚ
  incongruent_rt : ℚ
  deriving DecidableEq

/-- Tap payload committed to the context by the motor tap test. -/
structure TapData where
  intervals : List ℚ
  tap_count : ℕ
  deriving DecidableEq

/-- Optional word-fluency bonus test payload. -/
structure FluencyData where
  word_count : ℕ
  deriving DecidableEq

/-- Optional digit-span bonus test payload. -/
structure DigitSpanData where
  max_forward_span : ℕ
  deriving DecidableEq

/-- Raw profile kept in the context. Numeric form fields are represented by
their parse results: none models a value parseInt or parseFloat turns into
NaN, and likewise an undefined boolean or string field. -/
structure ProfileRaw where
  age_parsed : Option ℤ
  education_parsed : Option ℤ
  sleep_parsed : Option ℚ
  familyHistory : Option Bool
  existingDiagnosis : Option Bool
  sleepQuality : Option String
  deriving DecidableEq

/-- AssessmentContext state: one nullable slot per test module plus profile. -/
structure AssessmentState where
  speechData : Option SpeechData
  memoryData : Option MemoryData
  reactionData : Option ReactionData
  stroopData : Option StroopData
  tapData : Option TapData
  fluencyData : Option FluencyData
  digitSpanData : Option DigitSpanData
  profile : Option ProfileRaw
  deriving DecidableEq

namespace AssessmentHub

/-- requiredDone: how many of the five core test slots hold data
(the source filters the five context values through Boolean and counts). -/
def requiredDone (st : AssessmentState) : ℕ :=
  ([st.speechData.isSome, st.memoryData.isSome, st.reactionData.isSome,
    st.stroopData.isSome, st.tapData.isSome]).count true

/-- allRequired: requiredDone is at least 5. -/
@[reducible] def allRequired (st : AssessmentState) : Prop := 5 ≤ requiredDone st

/-- The submit button fires onClick only when not disabled; it is disabled
exactly when !allRequired || loading. -/
@[reducible] def submitEnabled (st : AssessmentState) (loading : Bool) : Prop :=
  allRequired st ∧ loading = false

/-- The legacy memory_results block of the submission payload. -/
structure MemoryResults where
  word_recall_accuracy : ℚ
  pattern_accuracy : ℚ
  deriving DecidableEq

/-- The speech block of the submission payload (no audio field). -/
structure SpeechPayload where
  wpm : ℤ
  speed_deviation : ℤ
  speech_speed_variability : ℤ
  pause_ratio : ℚ
  completion_ratio : ℚ
  restart_count : ℕ
  speech_start_delay : ℚ
  deriving DecidableEq

/-- The profile block of the submission payload. -/
structure ProfilePayload where
  age : Option ℤ
  education_level : Option ℤ
  sleep_hours : Option ℚ
  family_history : Bool
  existing_diagnosis : Bool
  sleep_quality : String
  deriving DecidableEq

/-- The full payload assembled by handleSubmit and posted to the analyzer. -/
structure SubmitPayload where
  speech_audio : Option String
  memory_results : MemoryResults
  reaction_times : List ℚ
  speech : Option SpeechPayload
  memory : Option MemoryData
  reaction : Option ReactionData
  stroop : Option StroopData
  tap : Option TapData
  profile : Option ProfilePayload
  fluency : Option FluencyData
  digit_span : Option DigitSpanData
  deriving DecidableEq

/-- Payload assembly of handleSubmit: each per-domain block is the mapped copy
of the context value and null when the context value is null; the legacy
memory_results block defaults each accuracy to 50 via the ?? operator; the
profile parse results pass through the JS truthiness coercions of the source. -/
def buildPayload (st : AssessmentState) : SubmitPayload :=
  { speech_audio := st.speechData.bind (fun s => s.audio_b64)
    memory_results :=
      { word_recall_accuracy := (st.memoryData.map (fun m => m.word_recall_accuracy)).getD 50
        pattern_accuracy := (st.memoryData.map (fun m => m.pattern_accuracy)).getD 50 }
    reaction_times := (st.reactionData.map (fun r => r.times)).getD []
    speech := st.speechData.map (fun s =>
      { wpm := s.wpm
        speed_deviation := s.speed_deviation
        speech_speed_variability := s.speech_speed_variability
        pause_ratio := s.pause_ratio
        completion_ratio := s.completion_ratio
        restart_count := s.restart_count
        speech_start_delay := s.speech_start_delay })
    memory := st.memoryData.map (fun m =>
      { word_recall_accuracy := m.word_recall_accuracy
        pattern_accuracy := m.pattern_accuracy
        delayed_recall_accuracy := m.delayed_recall_accuracy
        recall_latency_seconds := m.recall_latency_seconds
        order_match_ratio := m.order_match_ratio
        intrusion_count := m.intrusion_count })
    reaction := st.reactionData.map (fun r => { times := r.times, miss_count := r.miss_count })
    stroop := st.stroopData.map (fun s =>
      { total_trials := s.total_trials
        error_count := s.error_count
        mean_rt := s.mean_rt
        incongruent_rt := s.incongruent_rt })
    tap := st.tapData.map (fun t => { intervals := t.intervals, tap_count := t.tap_count })
    profile := st.profile.map (fun p =>
      { age := p.age_parsed.bind (fun n => if n = 0 then none else some n)
        education_level := p.education_parsed.bind (fun n => if n = 0 then none else some n)
        sleep_hours := p.sleep_parsed.bind (fun q => if q = 0 then none else some q)
        family_history := p.familyHistory.getD false
        existing_diagnosis := p.existingDiagnosis.getD false
        sleep_quality := p.sleepQuality.getD "normal" })
    fluency := st.fluencyData
    digit_span := st.digitSpanData }

/-- The fresh context: every slot null. -/
def emptyState : AssessmentState := ⟨none, none, none, none, none, none, none, none⟩

/-- A sample completed speech capture. -/
def sampleSpeech : SpeechData := ⟨none, 120, 5, 5, 1/10, 1, 0, 1/2⟩

/-- A sample completed memory capture. -/
def sampleMemory : MemoryData := ⟨80, 80, 80, 2, 1, 0⟩

/-- A sample completed reaction capture. -/
def sampleReaction : ReactionData := ⟨[300, 320, 310, 305], 0⟩

/-- A sample completed Stroop capture. -/
def sampleStroop : StroopData := ⟨20, 2, 800, 900⟩

/-- A sample completed tap capture. -/
def sampleTap : TapData := ⟨[200, 210], 40⟩

/-- A context in which all five mandatory domains hold data. -/
def fullState : AssessmentState :=
  ⟨some sampleSpeech, some sampleMemory, some sampleReaction,
   some sampleStroop, some sampleTap, none, none, none⟩

end AssessmentHub

namespace SpeechTest

/-- stdDev helper of SpeechTest (one-argument form): square root of the mean
squared deviation from the list mean, zero for fewer than two samples. -/
noncomputable def stdDev (arr : List ℚ) : ℝ :=
  if arr.length < 2 then 0
  else
    Real.sqrt
      (((arr.map (fun v => ((v : ℝ) - ((arr.sum / arr.length : ℚ) : ℝ)) ^ 2)).sum) /
        arr.length)

/-- Feature computation of stopRec. wordCount and the elapsed timer are the raw
measurements, firstSoundDelayMs is the detected first-sound offset when one was
detected, and r1, r2, r3 model the three Math.random() draws the source makes
for the two perturbed segment speeds and for the pause ratio. -/
noncomputable def stopRecFeatures (wordCount timer : ℕ) (firstSoundDelayMs : Option ℚ)
    (restartCount : ℕ) (audioB64 : Option String) (r1 r2 r3 : ℚ) : SpeechData :=
  let totalSec : ℚ := max (timer : ℚ) 1
  let wpm : ℚ := ((wordCount : ℚ) / totalSec) * 60
  let segDur : ℚ := totalSec / 3
  let wordsPerSeg : ℚ := (wordCount : ℚ) / 3
  let speedBase : ℚ := wordsPerSeg / segDur * 60
  let segWpms : List ℚ :=
    [speedBase, speedBase * (0.88 + r1 * 0.24), speedBase * (0.82 + r2 * 0.36)]
  let speedDev : ℝ := stdDev segWpms
  let compR : ℚ := min (totalSec / 30) 1
  let startDelay : ℚ :=
    match firstSoundDelayMs with
    | some d => roundTo 2 (d / 1000)
    | none => 1/2
  { audio_b64 := audioB64
    wpm := jsRound wpm
    speed_deviation := jsRoundR speedDev
    speech_speed_variability := jsRoundR speedDev
    pause_ratio := roundTo 3 (0.05 + r3 * 0.1)
    completion_ratio := roundTo 3 compR
    restart_count := restartCount
    speech_start_delay := startDelay }

end SpeechTest

namespace ReactionTest

/-- mean helper of ReactionTest: sum over length, zero for the empty list. -/
def mean (arr : List ℚ) : ℚ := if arr.length = 0 then 0 else arr.sum / arr.length

/-- stdDev helper of ReactionTest: square root of the mean squared deviation
from the given average, zero for fewer than two samples. -/
noncomputable def stdDev (arr : List ℚ) (avg : ℚ) : ℝ :=
  if 1 < arr.length then
    Real.sqrt (((arr.map (fun t => ((t : ℝ) - (avg : ℝ)) ^ 2)).sum) / arr.length)
  else 0

/-- Fatigue drift of ReactionTest: the rounded difference between the mean of
the later half and the mean of the earlier half (floor-split), zero with fewer
than four samples. -/
def drift (times : List ℚ) : ℤ :=
  if 4 ≤ times.length then
    jsRound (mean (times.drop (times.length / 2)) - mean (times.take (times.length / 2)))
  else 0

/-- Math.min spread over a list as used on the non-empty times list. -/
def jsMin : List ℚ → ℚ
  | [] => 0
  | x :: xs => xs.foldl min x

/-- finishTest commits reaction data to the context only when at least one
reaction time was captured; on an all-miss session it returns early and the
context slot is left untouched. -/
def finishTest (st : AssessmentState) (finalTimes : List ℚ) (finalMisses : ℕ) :
    AssessmentState :=
  if finalTimes = [] then st
  else { st with reactionData := some { times := finalTimes, miss_count := finalMisses } }

/-- The population standard deviation as the claim words it: the square root of
the mean squared deviation from the arithmetic mean (sum over length). Stated
from the claim wording for comparison with the stdDev of the source. -/
noncomputable def popStd (l : List ℚ) : ℝ :=
  Real.sqrt
    (((l.map (fun t => ((t : ℝ) - ((l.sum / l.length : ℚ) : ℝ)) ^ 2)).sum) / l.length)

end ReactionTest

namespace MemoryTest

/-- The ten target words of the memory test. -/
def TARGET_WORDS : List String :=
  ["River", "Apple", "Clock", "Bridge", "Music", "Cloud", "Forest", "Candle",
   "Mirror", "Stone"]

/-- hits: selected words that belong to the target set. -/
def hits (sel : List String) : List String :=
  sel.filter (fun w => decide (w ∈ TARGET_WORDS))

/-- recalledTarget: computed by the same filter as hits in the source. -/
def recalledTarget (sel : List String) : List String :=
  sel.filter (fun w => decide (w ∈ TARGET_WORDS))

/-- JS Array.indexOf: position of the first occurrence, -1 when absent. -/
def jsIndexOf (l : List String) (w : String) : ℤ :=
  if w ∈ l then (l.indexOf w : ℤ) else -1

/-- The loop counting adjacent recalled-target pairs that appear in the same
order as in TARGET_WORDS. -/
def orderMatches (l : List String) : ℕ :=
  (l.zip l.tail).countP
    (fun p => decide (jsIndexOf TARGET_WORDS p.1 < jsIndexOf TARGET_WORDS p.2))

/-- submitResultWithSelected: the memory payload committed to the context.
recallStart and firstClick are the timestamp refs (none when unset) and now is
the Date.now() fallback used when no click happened. -/
def submitResultWithSelected (sel : List String) (recallStart firstClick : Option ℚ)
    (now : ℚ) : MemoryData :=
  let latency : ℚ :=
    match recallStart with
    | some t0 => ((firstClick.getD now) - t0) / 1000
    | none => 5
  let hitsL := hits sel
  let recalled := recalledTarget sel
  let orderR : ℚ :=
    if 1 < recalled.length then (orderMatches recalled : ℚ) / ((recalled.length : ℚ) - 1)
    else 1
  let accuracy : ℚ := ((hitsL.length : ℚ) / (TARGET_WORDS.length : ℚ)) * 100
  { word_recall_accuracy := roundTo 2 accuracy
    pattern_accuracy := roundTo 2 accuracy
    delayed_recall_accuracy := roundTo 2 accuracy
    recall_latency_seconds := roundTo 2 (max latency (1/2))
    order_match_ratio := roundTo 3 orderR
    intrusion_count := (sel.filter (fun w => ! decide (w ∈ TARGET_WORDS))).length }

end MemoryTest

namespace ResultsPage

/-- The five domain scores carried by an analyzer result. -/
structure ResultScores where
  speech_score : ℚ
  memory_score : ℚ
  reaction_score : ℚ
  executive_score : ℚ
  motor_score : ℚ
  deriving DecidableEq

/-- domainScores of the results page: the five rounded domain scores. -/
def domainScores (r : ResultScores) : List ℤ :=
  [jsRound r.speech_score, jsRound r.memory_score, jsRound r.reaction_score,
   jsRound r.executive_score, jsRound r.motor_score]

/-- overallHealth of the results page: the rounded average of the rounded
domain scores (reduce of score over the list, divided by its length). -/
def overallHealth (r : ResultScores) : ℤ :=
  jsRound (((domainScores r).sum : ℚ) / ((domainScores r).length : ℚ))

/-- The weighted composite the claim and the on-page weight labels describe:
memory .30, speech .25, executive .20, reaction .15, motor .10. Stated from
the claim wording for comparison with overallHealth. -/
def specWeightedHealth (r : ResultScores) : ℚ :=
  0.30 * r.memory_score + 0.25 * r.speech_score + 0.20 * r.executive_score +
    0.15 * r.reaction_score + 0.10 * r.motor_score

/-- A result with memory 100 and every other domain 0 (all scores in range). -/
def r0 : ResultScores := ⟨0, 100, 0, 0, 0⟩

end ResultsPage

/-- A per-session record as read back from the assessments collection; each
score may be missing. -/
structure AssessmentRecord where
  speech_score : Option ℚ
  memory_score : Option ℚ
  reaction_score : Option ℚ
  executive_score : Option ℚ
  motor_score : Option ℚ
  deriving DecidableEq

namespace ProgressWellness

/-- toWellnessScore of the wellness progress page: 100 minus the composite
(50 when null), clamped to 0..100 and rounded. -/
def toWellnessScore (composite : Option ℚ) : ℤ :=
  jsRound (max 0 (min 100 (100 - composite.getD 50)))

/-- A tier badge: label and color. -/
structure Tier where
  label : String
  color : String
  deriving DecidableEq

/-- scoreTier of the wellness progress page: cut-points 72 and 52. -/
def scoreTier (s : ℤ) : Tier :=
  if 72 ≤ s then ⟨"Healthy", "#34d399"⟩
  else if 52 ≤ s then ⟨"Typical", "#fbbf24"⟩
  else ⟨"Monitor", "#f87171"⟩

/-- The tier bands as printed by the page itself (the history-table legend and
the score guide): 70 to 100 Healthy, 50 to 69 Typical, 0 to 49 Monitor. Stated
from that printed legend for comparison with scoreTier. -/
def legendLabel (s : ℤ) : String :=
  if 70 ≤ s then "Healthy" else if 50 ≤ s then "Typical" else "Monitor"

/-- Per-record overall: filter(Boolean) drops both missing and zero scores,
then the remaining scores are averaged and rounded (0 when none remain). -/
def entryOverall (h : AssessmentRecord) : ℤ :=
  let vals :=
    (([h.speech_score, h.memory_score, h.reaction_score, h.executive_score,
       h.motor_score]).filterMap id).filter (fun q => decide (q ≠ 0))
  if vals.length = 0 then 0 else jsRound (vals.sum / (vals.length : ℚ))

/-- overallData: the per-session overall series, or the six-entry placeholder
series when the history is empty. -/
def overallData (history : List AssessmentRecord) : List ℤ :=
  if history.length = 0 then [60, 63, 66, 65, 68, 72]
  else history.map entryOverall

/-- The text the TrendBadge renders: arrow and label, or the dash when the
series has fewer than two points. -/
def trendBadgeText (data : List ℤ) : String :=
  if data.length < 2 then "—"
  else
    let diff := (data.getLast?).getD 0 - (data.head?).getD 0
    (if 0 < diff then "↑" else if diff < 0 then "↓" else "→") ++ " " ++
      (if 0 < diff then "+" ++ toString diff ++ " pts"
       else if diff < 0 then toString diff ++ " pts" else "Stable")

end ProgressWellness

namespace ProgressPage

/-- Per-record overall of the pages ProgressPage: identical derivation to the
wellness page (filter(Boolean), average, round, 0 fallback). -/
def entryOverall (h : AssessmentRecord) : ℤ :=
  let vals :=
    (([h.speech_score, h.memory_score, h.reaction_score, h.executive_score,
       h.motor_score]).filterMap id).filter (fun q => decide (q ≠ 0))
  if vals.length = 0 then 0 else jsRound (vals.sum / (vals.length : ℚ))

/-- overallData of the pages ProgressPage with its placeholder series. -/
def overallData (history : List AssessmentRecord) : List ℤ :=
  if history.length = 0 then [60, 63, 66, 65, 68, 72]
  else history.map entryOverall

/-- trend of the pages ProgressPage: the dash for fewer than two points, else
an arrow plus point difference between last and first entries. -/
def trend (arr : List ℤ) : String :=
  if arr.length < 2 then "—"
  else
    let diff := (arr.getLast?).getD 0 - (arr.head?).getD 0
    if 0 < diff then "↑ +" ++ toString diff ++ " pts"
    else if diff < 0 then "↓ " ++ toString diff ++ " pts"
    else "→ Stable"

end ProgressPage

/-! Helper lemmas about the JS rounding helpers and small finite facts. -/

theorem jsRound_mono {a b : ℚ} (h : a ≤ b) : jsRound a ≤ jsRound b :=
  Int.floor_mono (by linarith)

theorem jsRound_intCast (n : ℤ) : jsRound (n : ℚ) = n := by
  unfold jsRound
  exact Int.floor_eq_iff.mpr ⟨by linarith, by linarith⟩

theorem jsRound_natCast (n : ℕ) : jsRound (n : ℚ) = n := by
  have h : ((n : ℚ)) = ((n : ℤ) : ℚ) := by push_cast; ring
  rw [h, jsRound_intCast]

theorem jsRound_nonneg {q : ℚ} (h : 0 ≤ q) : 0 ≤ jsRound q := by
  have h0 : jsRound ((0 : ℤ) : ℚ) = 0 := jsRound_intCast 0
  have := jsRound_mono (show ((0 : ℤ) : ℚ) ≤ q by push_cast; linarith)
  omega

theorem jsRound_le_intCast {q : ℚ} {n : ℤ} (h : q ≤ (n : ℚ)) : jsRound q ≤ n := by
  have := jsRound_mono h
  rwa [jsRound_intCast] at this

theorem roundTo_natCast (d k : ℕ) : roundTo d ((k : ℚ)) = k := by
  unfold roundTo
  have h : ((k : ℚ)) * 10 ^ d = (((k * 10 ^ d : ℕ)) : ℚ) := by push_cast; ring
  rw [h, jsRound_natCast]
  push_cast
  field_simp

theorem jsRound_eq_of (n : ℤ) (q : ℚ) (h : q = (n : ℚ)) : jsRound q = n := by
  rw [h, jsRound_intCast]

theorem roundTo_eq_of_mul (d : ℕ) (q : ℚ) (m : ℤ) (h : q * 10 ^ d = (m : ℚ)) :
    roundTo d q = q := by
  unfold roundTo
  rw [h, jsRound_intCast, div_eq_iff (by positivity : ((10 : ℚ)) ^ d ≠ 0)]
  linarith [h]

theorem count_five_all : ∀ b1 b2 b3 b4 b5 : Bool,
    5 ≤ ([b1, b2, b3, b4, b5]).count true →
      b1 = true ∧ b2 = true ∧ b3 = true ∧ b4 = true ∧ b5 = true := by decide

theorem count_reaction_missing : ∀ b1 b2 b4 b5 : Bool,
    ¬ 5 ≤ ([b1, b2, false, b4, b5]).count true := by decide

theorem foldl_min_mem (xs : List ℚ) : ∀ a : ℚ, xs.foldl min a ∈ a :: xs := by
  induction xs with
  | nil => intro a; simp [List.foldl_nil]
  | cons y ys ih =>
    intro a
    rw [List.foldl_cons]
    rcases List.mem_cons.mp (ih (min a y)) with h1 | h2
    · rcases min_choice a y with hm | hm
      · rw [h1, hm]; exact List.mem_cons_self _ _
      · rw [h1, hm]; exact List.mem_cons_of_mem _ (List.mem_cons_self _ _)
    · exact List.mem_cons_of_mem _ (List.mem_cons_of_mem _ h2)

theorem foldl_min_le (xs : List ℚ) : ∀ a : ℚ, ∀ x ∈ a :: xs, xs.foldl min a ≤ x := by
  induction xs with
  | nil =>
    intro a x hx
    rw [List.foldl_nil]
    rcases List.mem_cons.mp hx with h1 | h2
    · exact h1.symm.le
    · simp at h2
  | cons y ys ih =>
    intro a x hx
    rw [List.foldl_cons]
    have hmin := ih (min a y) (min a y) (List.mem_cons_self _ _)
    rcases List.mem_cons.mp hx with h1 | h2
    · subst h1
      exact le_trans hmin (min_le_left _ _)
    · rcases List.mem_cons.mp h2 with h3 | h4
      · subst h3
        exact le_trans hmin (min_le_right _ _)
      · exact ih (min a y) x (List.mem_cons_of_mem _ h4)

/-! Claim theorems. -/

/-- C1, counterexample: on a state whose memoryData is absent, handleSubmit
still fills both memory_results accuracies with the fixed default 50, so the
payload assembly does invent a plausible-looking number for missing raw data. -/
theorem C1_counterexample :
    AssessmentHub.emptyState.memoryData = none ∧
      (AssessmentHub.buildPayload AssessmentHub.emptyState).memory_results.word_recall_accuracy
        = 50 ∧
      (AssessmentHub.buildPayload AssessmentHub.emptyState).memory_results.pattern_accuracy
        = 50 := by
  refine ⟨rfl, ?_, ?_⟩ <;> rfl

/-- C1 as amended, over every context state: each per-domain block of the
payload is an explicit null exactly when its captured data is absent (a
biconditional, so a present domain is never mapped to null either), while the
legacy memory_results block defaults both accuracies to 50 whenever memoryData
is absent and carries the captured accuracies whenever it is present. -/
theorem C1_amended (st : AssessmentState) :
    ((AssessmentHub.buildPayload st).memory = none ↔ st.memoryData = none) ∧
      ((AssessmentHub.buildPayload st).speech = none ↔ st.speechData = none) ∧
      ((AssessmentHub.buildPayload st).reaction = none ↔ st.reactionData = none) ∧
      ((AssessmentHub.buildPayload st).stroop = none ↔ st.stroopData = none) ∧
      ((AssessmentHub.buildPayload st).tap = none ↔ st.tapData = none) ∧
      ((AssessmentHub.buildPayload st).fluency = none ↔ st.fluencyData = none) ∧
      ((AssessmentHub.buildPayload st).digit_span = none ↔ st.digitSpanData = none) ∧
      ((AssessmentHub.buildPayload st).profile = none ↔ st.profile = none) ∧
      (st.memoryData = none →
        (AssessmentHub.buildPayload st).memory_results = ⟨50, 50⟩) ∧
      (∀ m, st.memoryData = some m →
        (AssessmentHub.buildPayload st).memory_results =
          ⟨m.word_recall_accuracy, m.pattern_accuracy⟩) := by
  refine ⟨?_, ?_, ?_, ?_, ?_, ?_, ?_, ?_, ?_, ?_⟩
  · simp [AssessmentHub.buildPayload, Option.map_eq_none']
  · simp [AssessmentHub.buildPayload, Option.map_eq_none']
  · simp [AssessmentHub.buildPayload, Option.map_eq_none']
  · simp [AssessmentHub.buildPayload, Option.map_eq_none']
  · simp [AssessmentHub.buildPayload, Option.map_eq_none']
  · simp [AssessmentHub.buildPayload, Option.map_eq_none']
  · simp [AssessmentHub.buildPayload, Option.map_eq_none']
  · simp [AssessmentHub.buildPayload, Option.map_eq_none']
  · intro hm
    simp [AssessmentHub.buildPayload, hm]
  · intro m hm
    simp [AssessmentHub.buildPayload, hm]

/-- C1 witness: the amended statement on a fully captured state, whose present
memory block is copied and whose memory_results carries the captured values. -/
theorem C1_witness :
    ((AssessmentHub.buildPayload AssessmentHub.fullState).memory = none ↔
        AssessmentHub.fullState.memoryData = none) ∧
      ((AssessmentHub.buildPayload AssessmentHub.fullState).speech = none ↔
        AssessmentHub.fullState.speechData = none) ∧
      ((AssessmentHub.buildPayload AssessmentHub.fullState).reaction = none ↔
        AssessmentHub.fullState.reactionData = none) ∧
      ((AssessmentHub.buildPayload AssessmentHub.fullState).stroop = none ↔
        AssessmentHub.fullState.stroopData = none) ∧
      ((AssessmentHub.buildPayload AssessmentHub.fullState).tap = none ↔
        AssessmentHub.fullState.tapData = none) ∧
      ((AssessmentHub.buildPayload AssessmentHub.fullState).fluency = none ↔
        AssessmentHub.fullState.fluencyData = none) ∧
      ((AssessmentHub.buildPayload AssessmentHub.fullState).digit_span = none ↔
        AssessmentHub.fullState.digitSpanData = none) ∧
      ((AssessmentHub.buildPayload AssessmentHub.fullState).profile = none ↔
        AssessmentHub.fullState.profile = none) ∧
      (AssessmentHub.fullState.memoryData = none →
        (AssessmentHub.buildPayload AssessmentHub.fullState).memory_results = ⟨50, 50⟩) ∧
      (∀ m, AssessmentHub.fullState.memoryData = some m →
        (AssessmentHub.buildPayload AssessmentHub.fullState).memory_results =
          ⟨m.word_recall_accuracy, m.pattern_accuracy⟩) :=
  C1_amended AssessmentHub.fullState

/-- C2: whenever the submit action is enabled (allRequired and not loading),
every one of the five mandatory domain slots holds non-null captured data, so
no submission with a fully absent mandatory domain can be fired. -/
theorem C2_gate (st : AssessmentState) (loading : Bool)
    (h : AssessmentHub.submitEnabled st loading) :
    st.speechData ≠ none ∧ st.memoryData ≠ none ∧ st.reactionData ≠ none ∧
      st.stroopData ≠ none ∧ st.tapData ≠ none := by
  obtain ⟨hall, -⟩ := h
  have hc := count_five_all _ _ _ _ _ hall
  refine ⟨fun hn => ?_, fun hn => ?_, fun hn => ?_, fun hn => ?_, fun hn => ?_⟩ <;>
    rw [hn] at hc <;> simp at hc

/-- C2 witness: the gate theorem applied to a fully captured state. -/
theorem C2_witness :
    AssessmentHub.submitEnabled AssessmentHub.fullState false ∧
      (AssessmentHub.fullState.speechData ≠ none ∧
        AssessmentHub.fullState.memoryData ≠ none ∧
        AssessmentHub.fullState.reactionData ≠ none ∧
        AssessmentHub.fullState.stroopData ≠ none ∧
        AssessmentHub.fullState.tapData ≠ none) :=
  ⟨by decide, C2_gate AssessmentHub.fullState false (by decide)⟩

/-- C3, counterexample: two runs of the speech feature extraction on identical
raw measurements (36 words, 30 seconds, no detected first sound, no restarts)
but different Math.random() draws produce different pause_ratio values, so the
extraction is not deterministic in the raw measurements. -/
theorem C3_counterexample :
    SpeechData.pause_ratio (SpeechTest.stopRecFeatures 36 30 none 0 none 0 0 0) = 1/20 ∧
      SpeechData.pause_ratio (SpeechTest.stopRecFeatures 36 30 none 0 none 0 0 (1/2))
        = 1/10 ∧
      (1/20 : ℚ) ≠ (1/10 : ℚ) := by
  have e1 : SpeechData.pause_ratio (SpeechTest.stopRecFeatures 36 30 none 0 none 0 0 0) =
      roundTo 3 (0.05 + 0 * 0.1) := rfl
  have e2 : SpeechData.pause_ratio (SpeechTest.stopRecFeatures 36 30 none 0 none 0 0 (1/2)) =
      roundTo 3 (0.05 + (1/2) * 0.1) := rfl
  refine ⟨?_, ?_, by norm_num⟩
  · rw [e1, show (0.05 + 0 * 0.1 : ℚ) = 1/20 by norm_num]
    exact roundTo_eq_of_mul 3 _ 50 (by norm_num)
  · rw [e2, show (0.05 + (1/2) * 0.1 : ℚ) = 1/10 by norm_num]
    exact roundTo_eq_of_mul 3 _ 100 (by norm_num)

/-- C3 as amended: the wpm, completion_ratio, restart_count and
speech_start_delay outputs of the speech feature extraction depend only on the
raw measurements and are identical across runs; only speed_deviation,
speech_speed_variability and pause_ratio additionally consume random draws. -/
theorem C3_amended (wc t : ℕ) (d : Option ℚ) (rc : ℕ) (ab : Option String)
    (r1 r2 r3 s1 s2 s3 : ℚ) :
    (SpeechTest.stopRecFeatures wc t d rc ab r1 r2 r3).wpm =
        (SpeechTest.stopRecFeatures wc t d rc ab s1 s2 s3).wpm ∧
      SpeechData.completion_ratio (SpeechTest.stopRecFeatures wc t d rc ab r1 r2 r3) =
        SpeechData.completion_ratio (SpeechTest.stopRecFeatures wc t d rc ab s1 s2 s3) ∧
      (SpeechTest.stopRecFeatures wc t d rc ab r1 r2 r3).restart_count =
        (SpeechTest.stopRecFeatures wc t d rc ab s1 s2 s3).restart_count ∧
      (SpeechTest.stopRecFeatures wc t d rc ab r1 r2 r3).speech_start_delay =
        (SpeechTest.stopRecFeatures wc t d rc ab s1 s2 s3).speech_start_delay :=
  ⟨rfl, rfl, rfl, rfl⟩

/-- Monotonicity of the displayed overall health in every domain score. -/
theorem overallHealth_mono (r s : ResultsPage.ResultScores)
    (h1 : r.speech_score ≤ s.speech_score) (h2 : r.memory_score ≤ s.memory_score)
    (h3 : r.reaction_score ≤ s.reaction_score)
    (h4 : r.executive_score ≤ s.executive_score) (h5 : r.motor_score ≤ s.motor_score) :
    ResultsPage.overallHealth r ≤ ResultsPage.overallHealth s := by
  have g1 := jsRound_mono h1
  have g2 := jsRound_mono h2
  have g3 := jsRound_mono h3
  have g4 := jsRound_mono h4
  have g5 := jsRound_mono h5
  have hsum : ((ResultsPage.domainScores r).sum : ℚ) ≤ ((ResultsPage.domainScores s).sum : ℚ) := by
    have hz : (ResultsPage.domainScores r).sum ≤ (ResultsPage.domainScores s).sum := by
      simp only [ResultsPage.domainScores, List.sum_cons, List.sum_nil, add_zero]
      omega
    exact_mod_cast hz
  unfold ResultsPage.overallHealth
  apply jsRound_mono
  have hlr : (((ResultsPage.domainScores r).length : ℕ) : ℚ) = 5 := by
    simp [ResultsPage.domainScores]
  have hls : (((ResultsPage.domainScores s).length : ℕ) : ℚ) = 5 := by
    simp [ResultsPage.domainScores]
  rw [hlr, hls]
  exact (div_le_div_right (by norm_num)).mpr hsum

/-- C4, counterexample: with memory 100 and all other domains 0 (each score in
range), the page shows overallHealth 20 while the weighted composite described
by the claim is 30, so the displayed overall score is not the weighted sum. -/
theorem C4_counterexample :
    ResultsPage.overallHealth ResultsPage.r0 = 20 ∧
      ResultsPage.specWeightedHealth ResultsPage.r0 = 30 ∧
      ((ResultsPage.overallHealth ResultsPage.r0 : ℚ)) ≠
        ResultsPage.specWeightedHealth ResultsPage.r0 ∧
      (0 : ℚ) ≤ ResultsPage.r0.speech_score ∧ ResultsPage.r0.speech_score ≤ 100 ∧
      (0 : ℚ) ≤ ResultsPage.r0.memory_score ∧ ResultsPage.r0.memory_score ≤ 100 ∧
      (0 : ℚ) ≤ ResultsPage.r0.reaction_score ∧ ResultsPage.r0.reaction_score ≤ 100 ∧
      (0 : ℚ) ≤ ResultsPage.r0.executive_score ∧ ResultsPage.r0.executive_score ≤ 100 ∧
      (0 : ℚ) ≤ ResultsPage.r0.motor_score ∧ ResultsPage.r0.motor_score ≤ 100 := by
  have j0 : jsRound (0 : ℚ) = 0 := jsRound_eq_of 0 _ (by norm_num)
  have j100 : jsRound (100 : ℚ) = 100 := jsRound_eq_of 100 _ (by norm_num)
  have hov : ResultsPage.overallHealth ResultsPage.r0 = 20 := by
    simp only [ResultsPage.overallHealth, ResultsPage.domainScores, ResultsPage.r0,
      List.sum_cons, List.sum_nil, List.length_cons, List.length_nil, add_zero, j0, j100]
    exact jsRound_eq_of 20 _ (by push_cast; norm_num)
  have hsw : ResultsPage.specWeightedHealth ResultsPage.r0 = 30 := by
    simp only [ResultsPage.specWeightedHealth, ResultsPage.r0]
    norm_num
  refine ⟨hov, hsw, ?_, ?_, ?_, ?_, ?_, ?_, ?_, ?_, ?_, ?_, ?_⟩
  · rw [hov, hsw]; norm_num
  all_goals simp only [ResultsPage.r0] <;> norm_num

/-- C4 as amended: for every result whose five domain scores lie in 0..100 the
displayed overall score is the rounded equal-weight (one fifth each) average of
the five rounded domain scores, and it stays within 0..100; the 30/25/20/15/10
weights appear on the page only as contribution labels. -/
theorem C4_amended (r : ResultsPage.ResultScores)
    (h1 : 0 ≤ r.speech_score) (h2 : r.speech_score ≤ 100)
    (h3 : 0 ≤ r.memory_score) (h4 : r.memory_score ≤ 100)
    (h5 : 0 ≤ r.reaction_score) (h6 : r.reaction_score ≤ 100)
    (h7 : 0 ≤ r.executive_score) (h8 : r.executive_score ≤ 100)
    (h9 : 0 ≤ r.motor_score) (h10 : r.motor_score ≤ 100) :
    ResultsPage.overallHealth r =
        jsRound ((1/5 : ℚ) *
          ((jsRound r.speech_score : ℚ) + (jsRound r.memory_score : ℚ) +
            (jsRound r.reaction_score : ℚ) + (jsRound r.executive_score : ℚ) +
            (jsRound r.motor_score : ℚ))) ∧
      0 ≤ ResultsPage.overallHealth r ∧ ResultsPage.overallHealth r ≤ 100 := by
  have b1 := jsRound_nonneg h1
  have b2 := jsRound_nonneg h3
  have b3 := jsRound_nonneg h5
  have b4 := jsRound_nonneg h7
  have b5 := jsRound_nonneg h9
  have c1 : jsRound r.speech_score ≤ 100 := jsRound_le_intCast (by exact_mod_cast h2)
  have c2 : jsRound r.memory_score ≤ 100 := jsRound_le_intCast (by exact_mod_cast h4)
  have c3 : jsRound r.reaction_score ≤ 100 := jsRound_le_intCast (by exact_mod_cast h6)
  have c4 : jsRound r.executive_score ≤ 100 := jsRound_le_intCast (by exact_mod_cast h8)
  have c5 : jsRound r.motor_score ≤ 100 := jsRound_le_intCast (by exact_mod_cast h10)
  have hlen : (((ResultsPage.domainScores r).length : ℕ) : ℚ) = 5 := by
    simp [ResultsPage.domainScores]
  refine ⟨?_, ?_, ?_⟩
  · simp only [ResultsPage.overallHealth, ResultsPage.domainScores, List.sum_cons,
      List.sum_nil, List.length_cons, List.length_nil]
    congr 1
    push_cast
    ring
  · unfold ResultsPage.overallHealth
    apply jsRound_nonneg
    apply div_nonneg
    · have hz : (0 : ℤ) ≤ (ResultsPage.domainScores r).sum := by
        simp only [ResultsPage.domainScores, List.sum_cons, List.sum_nil, add_zero]
        omega
      exact_mod_cast hz
    · positivity
  · unfold ResultsPage.overallHealth
    apply jsRound_le_intCast
    rw [hlen, div_le_iff (by norm_num : (0 : ℚ) < 5)]
    have hz : (ResultsPage.domainScores r).sum ≤ 500 := by
      simp only [ResultsPage.domainScores, List.sum_cons, List.sum_nil, add_zero]
      omega
    calc ((ResultsPage.domainScores r).sum : ℚ) ≤ 500 := by exact_mod_cast hz
      _ = ((100 : ℤ) : ℚ) * 5 := by push_cast; norm_num

/-- C4 witness: the amended statement at a concrete in-range result. -/
theorem C4_witness :
    ((0 : ℚ) ≤ 50 ∧ (50 : ℚ) ≤ 100) ∧
      (ResultsPage.overallHealth ⟨50, 60, 70, 80, 90⟩ =
          jsRound ((1/5 : ℚ) *
            ((jsRound (50 : ℚ) : ℚ) + (jsRound (60 : ℚ) : ℚ) + (jsRound (70 : ℚ) : ℚ) +
              (jsRound (80 : ℚ) : ℚ) + (jsRound (90 : ℚ) : ℚ))) ∧
        0 ≤ ResultsPage.overallHealth ⟨50, 60, 70, 80, 90⟩ ∧
        ResultsPage.overallHealth ⟨50, 60, 70, 80, 90⟩ ≤ 100) :=
  ⟨⟨by decide, by decide⟩,
    C4_amended ⟨50, 60, 70, 80, 90⟩ (by decide) (by decide) (by decide) (by decide)
      (by decide) (by decide) (by decide) (by decide) (by decide) (by decide)⟩

/-- toWellnessScore is antitone in a present composite value. -/
theorem toWellnessScore_antitone {c c2 : ℚ} (h : c ≤ c2) :
    ProgressWellness.toWellnessScore (some c2) ≤ ProgressWellness.toWellnessScore (some c) := by
  apply jsRound_mono
  simp only [Option.getD_some]
  exact max_le_max le_rfl (min_le_min le_rfl (by linarith))

/-- On integer composites between 0 and 100 the wellness transform is exactly
100 minus the composite (the clamp and the rounding are the identity there). -/
theorem toWellnessScore_int (n : ℤ) (hn0 : 0 ≤ n) (hn1 : n ≤ 100) :
    ProgressWellness.toWellnessScore (some (n : ℚ)) = 100 - n := by
  unfold ProgressWellness.toWellnessScore
  have hmin : min (100 : ℚ) (100 - (n : ℚ)) = 100 - (n : ℚ) := by
    apply min_eq_right
    have : (0 : ℚ) ≤ (n : ℚ) := by exact_mod_cast hn0
    linarith
  have hmax : max (0 : ℚ) (100 - (n : ℚ)) = 100 - (n : ℚ) := by
    apply max_eq_right
    have : (n : ℚ) ≤ 100 := by exact_mod_cast hn1
    linarith
  rw [Option.getD_some, hmin, hmax]
  have : (100 : ℚ) - (n : ℚ) = (((100 - n : ℤ)) : ℚ) := by push_cast; ring
  rw [this, jsRound_intCast]

/-- C7: raising any domain score (here: any pointwise raise of the five scores)
never lowers the displayed overall health; the wellness transform is antitone
in the composite risk, and on in-range integer composites it is exactly
100 - composite; hence a higher domain score never raises the reported risk. -/
theorem C7_monotone (r s : ResultsPage.ResultScores)
    (h1 : r.speech_score ≤ s.speech_score) (h2 : r.memory_score ≤ s.memory_score)
    (h3 : r.reaction_score ≤ s.reaction_score)
    (h4 : r.executive_score ≤ s.executive_score) (h5 : r.motor_score ≤ s.motor_score)
    (c c2 : ℚ) (hc : c ≤ c2) (n : ℤ) (hn0 : 0 ≤ n) (hn1 : n ≤ 100) :
    ResultsPage.overallHealth r ≤ ResultsPage.overallHealth s ∧
      ProgressWellness.toWellnessScore (some c2) ≤
        ProgressWellness.toWellnessScore (some c) ∧
      ProgressWellness.toWellnessScore (some (n : ℚ)) = 100 - n :=
  ⟨overallHealth_mono r s h1 h2 h3 h4 h5, toWellnessScore_antitone hc,
    toWellnessScore_int n hn0 hn1⟩

/-- C7 witness: the monotonicity statement at concrete scores and composites. -/
theorem C7_witness :
    ((0 : ℚ) ≤ 10 ∧ (10 : ℚ) ≤ 20 ∧ (0 : ℤ) ≤ 30 ∧ (30 : ℤ) ≤ 100) ∧
      (ResultsPage.overallHealth ⟨0, 0, 0, 0, 0⟩ ≤
          ResultsPage.overallHealth ⟨10, 10, 10, 10, 10⟩ ∧
        ProgressWellness.toWellnessScore (some (20 : ℚ)) ≤
          ProgressWellness.toWellnessScore (some (10 : ℚ)) ∧
        ProgressWellness.toWellnessScore (some ((30 : ℤ) : ℚ)) = 100 - 30) :=
  ⟨⟨by decide, by decide, by decide, by decide⟩,
    C7_monotone ⟨0, 0, 0, 0, 0⟩ ⟨10, 10, 10, 10, 10⟩ (by decide) (by decide) (by decide)
      (by decide) (by decide) 10 20 (by decide) 30 (by decide) (by decide)⟩

/-- C5: scoreTier places its cut-points at 52 and 72, so the scores 70 and 71
are classified Typical and 50 and 51 are classified Monitor, contradicting the
0 to 49 / 50 to 69 / 70 to 100 legend the very same page prints. -/
theorem C5_scoreTier_vs_legend :
    (ProgressWellness.scoreTier 70).label = "Typical" ∧
      (ProgressWellness.scoreTier 71).label = "Typical" ∧
      (ProgressWellness.scoreTier 50).label = "Monitor" ∧
      (ProgressWellness.scoreTier 51).label = "Monitor" ∧
      (ProgressWellness.scoreTier 72).label = "Healthy" ∧
      (ProgressWellness.scoreTier 52).label = "Typical" ∧
      (ProgressWellness.scoreTier 70).label ≠ ProgressWellness.legendLabel 70 ∧
      (ProgressWellness.scoreTier 50).label ≠ ProgressWellness.legendLabel 50 := by
  decide

/-- C6, counterexample: on the captured times 1, 2, 2, 2 the drift shown is the
rounded value 1, not the exact later-half minus earlier-half mean difference,
which is one half; the claimed equality fails because the source rounds. -/
theorem C6_counterexample :
    ReactionTest.drift [1, 2, 2, 2] = 1 ∧
      ReactionTest.mean (([1, 2, 2, 2] : List ℚ).drop 2) -
          ReactionTest.mean (([1, 2, 2, 2] : List ℚ).take 2) = 1/2 ∧
      ((ReactionTest.drift [1, 2, 2, 2] : ℚ)) ≠
        ReactionTest.mean (([1, 2, 2, 2] : List ℚ).drop 2) -
          ReactionTest.mean (([1, 2, 2, 2] : List ℚ).take 2) := by
  have hm2 : ReactionTest.mean (([1, 2, 2, 2] : List ℚ).drop 2) = 2 := by
    show ReactionTest.mean [2, 2] = 2
    norm_num [ReactionTest.mean]
  have hm1 : ReactionTest.mean (([1, 2, 2, 2] : List ℚ).take 2) = 3/2 := by
    show ReactionTest.mean [1, 2] = 3/2
    norm_num [ReactionTest.mean]
  have hd : ReactionTest.drift [1, 2, 2, 2] = 1 := by
    have e : ReactionTest.drift [1, 2, 2, 2] =
        jsRound (ReactionTest.mean (([1, 2, 2, 2] : List ℚ).drop 2) -
          ReactionTest.mean (([1, 2, 2, 2] : List ℚ).take 2)) := by
      simp [ReactionTest.drift]
    rw [e, hm2, hm1]
    unfold jsRound
    rw [show (2 - 3/2 : ℚ) + 1/2 = ((1 : ℤ) : ℚ) by norm_num]
    exact Int.floor_intCast 1
  exact ⟨hd, by rw [hm2, hm1]; norm_num, by rw [hd, hm2, hm1]; norm_num⟩

/-- C6 as amended: for every non-empty times list the mean is the arithmetic
mean, the stdDev (at the mean) is exactly the population standard deviation
and is 0 with fewer than two entries, the Math.min value is the list minimum,
and the drift is the rounded (not exact) later-half minus earlier-half mean
difference when the list has at least four entries and 0 otherwise. -/
theorem C6_amended (l : List ℚ) (h : l ≠ []) :
    ReactionTest.mean l = l.sum / l.length ∧
      ReactionTest.stdDev l (ReactionTest.mean l) = ReactionTest.popStd l ∧
      (l.length < 2 → ReactionTest.stdDev l (ReactionTest.mean l) = 0) ∧
      ReactionTest.jsMin l ∈ l ∧
      (∀ x ∈ l, ReactionTest.jsMin l ≤ x) ∧
      (4 ≤ l.length →
        ReactionTest.drift l =
          jsRound (ReactionTest.mean (l.drop (l.length / 2)) -
            ReactionTest.mean (l.take (l.length / 2)))) ∧
      (l.length < 4 → ReactionTest.drift l = 0) := by
  have hlen : l.length ≠ 0 := fun hl => h (List.length_eq_zero.mp hl)
  have hmean : ReactionTest.mean l = l.sum / l.length := by
    simp [ReactionTest.mean, hlen]
  refine ⟨hmean, ?_, ?_, ?_, ?_, ?_, ?_⟩
  · by_cases h2 : 1 < l.length
    · simp only [ReactionTest.stdDev, if_pos h2, ReactionTest.popStd, hmean]
    · have h1 : l.length = 1 := by omega
      obtain ⟨x, hx⟩ := List.length_eq_one.mp h1
      subst hx
      simp [ReactionTest.stdDev, ReactionTest.popStd]
  · intro hlt
    simp [ReactionTest.stdDev, show ¬ 1 < l.length by omega]
  · rcases l with _ | ⟨x, xs⟩
    · exact absurd rfl h
    · exact foldl_min_mem xs x
  · rcases l with _ | ⟨x, xs⟩
    · exact absurd rfl h
    · exact foldl_min_le xs x
  · intro h4
    simp [ReactionTest.drift, if_pos h4]
  · intro h4
    simp [ReactionTest.drift, show ¬ 4 ≤ l.length by omega]

/-- C6 witness: the amended statement at the concrete times 1, 2, 3, 4. -/
theorem C6_witness :
    (([1, 2, 3, 4] : List ℚ) ≠ []) ∧
      (ReactionTest.mean [1, 2, 3, 4] =
          ([1, 2, 3, 4] : List ℚ).sum / (([1, 2, 3, 4] : List ℚ)).length ∧
        ReactionTest.stdDev [1, 2, 3, 4] (ReactionTest.mean [1, 2, 3, 4]) =
          ReactionTest.popStd [1, 2, 3, 4] ∧
        ((([1, 2, 3, 4] : List ℚ)).length < 2 →
          ReactionTest.stdDev [1, 2, 3, 4] (ReactionTest.mean [1, 2, 3, 4]) = 0) ∧
        ReactionTest.jsMin [1, 2, 3, 4] ∈ ([1, 2, 3, 4] : List ℚ) ∧
        (∀ x ∈ ([1, 2, 3, 4] : List ℚ), ReactionTest.jsMin [1, 2, 3, 4] ≤ x) ∧
        (4 ≤ (([1, 2, 3, 4] : List ℚ)).length →
          ReactionTest.drift [1, 2, 3, 4] =
            jsRound (ReactionTest.mean (([1, 2, 3, 4] : List ℚ).drop
                ((([1, 2, 3, 4] : List ℚ)).length / 2)) -
              ReactionTest.mean (([1, 2, 3, 4] : List ℚ).take
                ((([1, 2, 3, 4] : List ℚ)).length / 2)))) ∧
        ((([1, 2, 3, 4] : List ℚ)).length < 4 → ReactionTest.drift [1, 2, 3, 4] = 0)) :=
  ⟨by decide, C6_amended [1, 2, 3, 4] (by decide)⟩

/-- C8, counterexample: with an empty history (zero recorded sessions, hence
fewer than two) both progress pages substitute the placeholder series and the
trend indicator shows an upward 12 point badge, not the neutral dash. -/
theorem C8_counterexample :
    ProgressPage.trend (ProgressPage.overallData []) = "↑ +12 pts" ∧
      ProgressWellness.trendBadgeText (ProgressWellness.overallData []) = "↑ +12 pts" ∧
      ("↑ +12 pts" : String) ≠ "—" := by
  refine ⟨by decide, by decide, by decide⟩

/-- C8 as amended: with exactly one recorded session the trend indicators of
both progress pages render the neutral dash (insufficient history); with zero
sessions the placeholder demo series produces a non-neutral badge instead. -/
theorem C8_amended (history : List AssessmentRecord) (h : history.length = 1) :
    ProgressPage.trend (ProgressPage.overallData history) = "—" ∧
      ProgressWellness.trendBadgeText (ProgressWellness.overallData history) = "—" := by
  have h0 : history.length ≠ 0 := by omega
  constructor
  · simp [ProgressPage.overallData, ProgressPage.trend, h0, List.length_map, h]
  · simp [ProgressWellness.overallData, ProgressWellness.trendBadgeText, h0,
      List.length_map, h]

/-- C8 witness: the amended statement on a one-session history. -/
theorem C8_witness :
    ([(⟨some 50, some 50, some 50, some 50, some 50⟩ : AssessmentRecord)]).length = 1 ∧
      (ProgressPage.trend (ProgressPage.overallData
          [⟨some 50, some 50, some 50, some 50, some 50⟩]) = "—" ∧
        ProgressWellness.trendBadgeText (ProgressWellness.overallData
          [⟨some 50, some 50, some 50, some 50, some 50⟩]) = "—") :=
  ⟨rfl, C8_amended [⟨some 50, some 50, some 50, some 50, some 50⟩] rfl⟩

/-- C9: for every duplicate-free selection the three accuracy fields of the
memory payload all equal hits over ten times one hundred (a value within
0..100, so delayed recall is never measured separately), and the order match
ratio is exactly 1 whenever at most one target word was recalled. -/
theorem C9_memory_payload (sel : List String) (recallStart firstClick : Option ℚ)
    (now : ℚ) (h : sel.Nodup) :
    (MemoryTest.submitResultWithSelected sel recallStart firstClick now).word_recall_accuracy
        = ((MemoryTest.hits sel).length : ℚ) / 10 * 100 ∧
      (MemoryTest.submitResultWithSelected sel recallStart firstClick now).pattern_accuracy
        = (MemoryTest.submitResultWithSelected sel recallStart firstClick
            now).word_recall_accuracy ∧
      (MemoryTest.submitResultWithSelected sel recallStart firstClick
            now).delayed_recall_accuracy
        = (MemoryTest.submitResultWithSelected sel recallStart firstClick
            now).word_recall_accuracy ∧
      0 ≤ (MemoryTest.submitResultWithSelected sel recallStart firstClick
            now).word_recall_accuracy ∧
      (MemoryTest.submitResultWithSelected sel recallStart firstClick
            now).word_recall_accuracy ≤ 100 ∧
      ((MemoryTest.recalledTarget sel).length ≤ 1 →
        MemoryData.order_match_ratio
          (MemoryTest.submitResultWithSelected sel recallStart firstClick now) = 1) := by
  have hTW : ((MemoryTest.TARGET_WORDS.length : ℕ) : ℚ) = 10 := by
    norm_num [MemoryTest.TARGET_WORDS]
  have hlen : (MemoryTest.hits sel).length ≤ 10 := by
    have hnd : (MemoryTest.hits sel).Nodup := h.filter _
    have hsub : MemoryTest.hits sel ⊆ MemoryTest.TARGET_WORDS := by
      intro w hw
      have hmem := List.mem_filter.mp hw
      exact of_decide_eq_true hmem.2
    calc (MemoryTest.hits sel).length ≤ MemoryTest.TARGET_WORDS.length :=
          (hnd.subperm hsub).length_le
      _ = 10 := rfl
  have haccval : ((MemoryTest.hits sel).length : ℚ) /
        ((MemoryTest.TARGET_WORDS.length : ℕ) : ℚ) * 100
      = (((10 * (MemoryTest.hits sel).length : ℕ)) : ℚ) := by
    rw [hTW]
    push_cast
    field_simp
    ring
  have hwra : (MemoryTest.submitResultWithSelected sel recallStart firstClick
        now).word_recall_accuracy
      = ((MemoryTest.hits sel).length : ℚ) / 10 * 100 := by
    show roundTo 2 (((MemoryTest.hits sel).length : ℚ) /
        ((MemoryTest.TARGET_WORDS.length : ℕ) : ℚ) * 100)
      = ((MemoryTest.hits sel).length : ℚ) / 10 * 100
    rw [haccval, roundTo_natCast]
    push_cast
    field_simp
    ring
  refine ⟨hwra, rfl, rfl, ?_, ?_, ?_⟩
  · rw [hwra]
    positivity
  · rw [hwra]
    have hk : ((MemoryTest.hits sel).length : ℚ) ≤ 10 := by exact_mod_cast hlen
    have he : ((MemoryTest.hits sel).length : ℚ) / 10 * 100
        = 10 * ((MemoryTest.hits sel).length : ℚ) := by
      field_simp
      ring
    rw [he]
    linarith
  · intro hle
    have hne : ¬ 1 < (MemoryTest.recalledTarget sel).length := by omega
    show roundTo 3 (if 1 < (MemoryTest.recalledTarget sel).length then
        ((MemoryTest.orderMatches (MemoryTest.recalledTarget sel) : ℚ)) /
          (((MemoryTest.recalledTarget sel).length : ℚ) - 1)
      else 1) = 1
    rw [if_neg hne]
    have := roundTo_natCast 3 1
    simpa using this

/-- C9 witness: the payload statement on the singleton selection Apple. -/
theorem C9_witness :
    (["Apple"]).Nodup ∧
      ((MemoryTest.submitResultWithSelected ["Apple"] none none 0).word_recall_accuracy
          = ((MemoryTest.hits ["Apple"]).length : ℚ) / 10 * 100 ∧
        (MemoryTest.submitResultWithSelected ["Apple"] none none 0).pattern_accuracy
          = (MemoryTest.submitResultWithSelected ["Apple"] none none
              0).word_recall_accuracy ∧
        (MemoryTest.submitResultWithSelected ["Apple"] none none 0).delayed_recall_accuracy
          = (MemoryTest.submitResultWithSelected ["Apple"] none none
              0).word_recall_accuracy ∧
        0 ≤ (MemoryTest.submitResultWithSelected ["Apple"] none none
              0).word_recall_accuracy ∧
        (MemoryTest.submitResultWithSelected ["Apple"] none none
              0).word_recall_accuracy ≤ 100 ∧
        ((MemoryTest.recalledTarget ["Apple"]).length ≤ 1 →
          MemoryData.order_match_ratio
            (MemoryTest.submitResultWithSelected ["Apple"] none none 0) = 1)) :=
  ⟨by decide, C9_memory_payload ["Apple"] none none 0 (by decide)⟩

/-- C10: when every round timed out (empty final times) finishTest leaves the
reaction slot of the context absent, and with the reaction slot absent the
submit gate can never be enabled, so no payload from an all-miss session is
ever produced. -/
theorem C10_allmiss_gate (st : AssessmentState) (m : ℕ) (h : st.reactionData = none) :
    (ReactionTest.finishTest st [] m).reactionData = none ∧
      ∀ loading : Bool,
        ¬ AssessmentHub.submitEnabled (ReactionTest.finishTest st [] m) loading := by
  have hfin : ReactionTest.finishTest st [] m = st := by
    simp [ReactionTest.finishTest]
  constructor
  · rw [hfin]; exact h
  · intro loading hsub
    rw [hfin] at hsub
    obtain ⟨hall, -⟩ := hsub
    simp only [AssessmentHub.allRequired, AssessmentHub.requiredDone, h,
      Option.isSome_none] at hall
    exact count_reaction_missing _ _ _ _ hall

/-- C10 witness: the all-miss statement on the fresh context. -/
theorem C10_witness :
    AssessmentHub.emptyState.reactionData = none ∧
      ((ReactionTest.finishTest AssessmentHub.emptyState [] 7).reactionData = none ∧
        ∀ loading : Bool,
          ¬ AssessmentHub.submitEnabled
              (ReactionTest.finishTest AssessmentHub.emptyState [] 7) loading) :=
  ⟨rfl, C10_allmiss_gate AssessmentHub.emptyState 7 rfl⟩

end NeuroAid
